import Mathlib

/-!
Verification of the Odyssey `wallet_` RPC namespace
(`crates/wallet/src/lib.rs`): the request validator, the destination
authorizer and the sequencer-sponsored transaction pipeline
(`send_transaction`), together with the error-object mapping and the
call metrics.

The Rust code is shallowly embedded: `U256` values and addresses are
modelled as `Nat` (the wallet code only compares them with zero and with
the gas ceiling, so the 2^256 / 2^160 bounds are never relevant),
fallible collaborator calls (state provider, nonce source, gas
estimator, fee oracle, signer, transaction pool) are fields of an
environment record holding `Except`-valued results, and the two metrics
counters are modelled as the number of increments a single call
performs.  The tokio mutex permit has no observable effect on a single
sequential call and is not modelled.
-/

deriving instance DecidableEq for Except

/-- Ethereum address, 160 bits; `Address.ZERO` of the source is `0`. -/
abbrev Address := Nat

/-- 256-bit unsigned integer of the source (`alloy_primitives::U256`).
Only comparisons against `0` and `350000` occur, so `Nat` is faithful. -/
abbrev U256 := Nat

/-- `alloy_primitives::TxKind`: the `to` field of a request is either a
contract creation or a call to an address. -/
inductive TxKind where
  | Create : TxKind
  | Call : Address → TxKind
deriving DecidableEq, Repr

/-- One EIP-7702 authorization tuple (`alloy SignedAuthorization`).  The
wallet code only tests whether the list is present (`is_some`), never
reads the entries, so only the shape matters here. -/
structure SignedAuthorization where
  auth_chain_id : Nat
  auth_address : Address
  auth_nonce : Nat
deriving DecidableEq, Repr

/-- The fields of `alloy_rpc_types::TransactionRequest` that the wallet
code reads or writes.  Fields of the alloy struct never touched by
`crates/wallet/src/lib.rs` (input, access list, blob fields, …) are
omitted from the embedding. -/
structure TransactionRequest where
  value : Option U256 := none
  «from» : Option Address := none
  nonce : Option Nat := none
  «to» : Option TxKind := none
  authorization_list : Option (List SignedAuthorization) := none
  chain_id : Option Nat := none
  gas : Option Nat := none
  max_fee_per_gas : Option Nat := none
  max_priority_fee_per_gas : Option Nat := none
  gas_price : Option Nat := none
deriving DecidableEq, Repr

/-- `OdysseyWalletError` of the source, one constructor per variant. -/
inductive OdysseyWalletError where
  | ValueNotZero : OdysseyWalletError
  | FromSet : OdysseyWalletError
  | NonceSet : OdysseyWalletError
  | IllegalDestination : OdysseyWalletError
  | InvalidTransactionRequest : OdysseyWalletError
  | GasEstimateTooHigh : (estimate : Nat) → OdysseyWalletError
  | InternalError : OdysseyWalletError
deriving DecidableEq, Repr

/-- `validate_tx_request` (lib.rs lines 296-313): rejects a non-zero
value, then a set `from` field, then a set nonce. -/
def validate_tx_request (request : TransactionRequest) :
    Except OdysseyWalletError Unit :=
  -- reject transactions that have a non-zero value to prevent draining
  -- the sequencer (`request.value.is_some_and(|val| val > U256::ZERO)`)
  if request.value.any (fun val => decide (0 < val)) then
    .error .ValueNotZero
  -- reject transactions that have from set, as this will be the sequencer
  else if request.«from».isSome then
    .error .FromSet
  -- reject transaction requests that have nonce set, as this is managed
  -- by the sequencer
  else if request.nonce.isSome then
    .error .NonceSet
  else
    .ok ()

/-- `revm_primitives::Bytecode` as discriminated by the wallet code:
`Bytecode::Eip7702(code) => Some(code.address())` against every other
variant.  The raw bytes of the non-delegation variants are irrelevant to
the wallet and carried as an uninterpreted list. -/
inductive Bytecode where
  | LegacyRaw : List Nat → Bytecode
  | LegacyAnalyzed : List Nat → Bytecode
  | Eip7702 : (delegated : Address) → Bytecode
  | Eof : Bytecode
deriving DecidableEq, Repr

/-- The state provider returned by `provider.latest()`; the wallet only
calls `account_code` on it.  `E` is the collaborator error type. -/
structure StateProviderState (E : Type) where
  account_code : Address → Except E (Option Bytecode)

/-- The collaborators and configuration of `OdysseyWalletInner` that one
call of `send_transaction` consults: the chain id, the sequencer signer
address, the state provider, the nonce source, the gas estimator, the
fee oracle, the signer (`build`) and the transaction pool.  `E` is the
collaborator error type, `V` the signed envelope type, `H` the
transaction hash type. -/
structure Env (E V H : Type) where
  chain_id : Nat
  signer_address : Address
  latest : Except E (StateProviderState E)
  next_available_nonce : Except E Nat
  estimate_gas : TransactionRequest → Except E Nat
  eip1559_fees : Except E (Nat × Nat)
  build : TransactionRequest → Except E V
  send_raw_transaction : V → Except E H

/-- What the RPC caller sees on failure: either an `OdysseyWalletError`
converted to an error object, or a collaborator error passed through
unchanged (`err.into()` on the nonce-lookup, gas-estimation and
submission paths). -/
inductive RpcErr (E : Type) where
  | wallet : OdysseyWalletError → RpcErr E
  | passthrough : E → RpcErr E
deriving DecidableEq, Repr

/-- The number of increments of the two `WalletMetrics` counters
performed by a single call to `send_transaction`. -/
structure Metrics where
  invalid_send_transaction_calls : Nat
  valid_send_transaction_calls : Nat
deriving DecidableEq, Repr

/-- Lines 185-193 of lib.rs: `state.account_code(addr).ok().flatten()
.and_then(|code| ...).unwrap_or_default()` — the address the bytecode at
`addr` delegates to, defaulting to `Address.ZERO = 0` when the read
fails, there is no code, or the code is not an EIP-7702 designator. -/
def delegated_address_of {E} (state : StateProviderState E) (addr : Address) :
    Address :=
  (((state.account_code addr).toOption.join).bind (fun code =>
    match code with
    | .Eip7702 a => some a
    | _ => none)).getD 0

/-- Lines 213-231: the pipeline fills nonce, chain id and `from` (the
sequencer's signer address) on the request before estimating gas. -/
def fill_request {E V H} (env : Env E V H) (request : TransactionRequest)
    (next_nonce : Nat) : TransactionRequest :=
  let request := {request with nonce := some next_nonce}
  let request := {request with chain_id := some env.chain_id}
  {request with «from» := some env.signer_address}

/-- Lines 252-255: fixed 1 gwei priority fee, max fee = base fee +
priority fee, legacy gas price cleared. -/
def compute_fees (base_fee : Nat) (request : TransactionRequest) :
    TransactionRequest :=
  let max_priority_fee_per_gas := 1000000000
  {request with
    max_fee_per_gas := some (base_fee + max_priority_fee_per_gas),
    max_priority_fee_per_gas := some max_priority_fee_per_gas,
    gas_price := none}

/-- Lines 257-280: build and sign the request (failure is
`InvalidTransactionRequest`), count the call as valid, then hand the
envelope to the transaction pool; a submission failure is passed through
unchanged and does not touch the invalid counter. -/
def build_and_submit {E V H} (env : Env E V H) (request : TransactionRequest) :
    Except (RpcErr E) H × Metrics :=
  match env.build request with
  | .error _ => (.error (.wallet .InvalidTransactionRequest), ⟨1, 0⟩)
  | .ok envelope =>
    -- all checks passed, increment the valid calls counter
    match env.send_raw_transaction envelope with
    | .error err => (.error (.passthrough err), ⟨0, 1⟩)
    | .ok hash => (.ok hash, ⟨0, 1⟩)

/-- Lines 247-280: examine the base-fee result (failure is mapped to
`InvalidTransactionRequest`, its value discarded), compute the fee
fields, then build, sign and submit. -/
def fee_and_sign {E V H} (env : Env E V H) (request : TransactionRequest) :
    Except (RpcErr E) H × Metrics :=
  match env.eip1559_fees with
  | .error _ => (.error (.wallet .InvalidTransactionRequest), ⟨1, 0⟩)
  | .ok (base_fee, _) => build_and_submit env (compute_fees base_fee request)

/-- Lines 210-280: the permit-guarded region — nonce assignment, chain
id, gas estimation, the 350000-gas cap, fee computation, signing and
submission.  In the source the base-fee future runs concurrently with
gas estimation (`tokio::join!`) but its result is only examined after
the cap check; this sequential model examines the same fixed value at
that same point. -/
def sponsor_pipeline {E V H} (env : Env E V H) (request : TransactionRequest) :
    Except (RpcErr E) H × Metrics :=
  match env.next_available_nonce with
  | .error err => (.error (.passthrough err), ⟨1, 0⟩)
  | .ok next_nonce =>
    let request := fill_request env request next_nonce
    match env.estimate_gas request with
    | .error err => (.error (.passthrough err), ⟨1, 0⟩)
    | .ok estimate =>
      if 350000 ≤ estimate then
        (.error (.wallet (.GasEstimateTooHigh estimate)), ⟨1, 0⟩)
      else
        fee_and_sign env {request with gas := some estimate}

/-- Lines 167-280: `send_transaction` — validate the request, authorize
the destination, then run the sponsorship pipeline.  The returned
`Metrics` records this call's increments of the two wallet counters. -/
def send_transaction {E V H} (env : Env E V H) (request : TransactionRequest) :
    Except (RpcErr E) H × Metrics :=
  match validate_tx_request request with
  | .error err => (.error (.wallet err), ⟨1, 0⟩)
  | .ok _ =>
    -- validate destination
    match request.authorization_list.isSome, request.«to» with
    -- an eip-1559 tx must call an account delegated to a whitelisted address
    | false, some (.Call addr) =>
      match env.latest with
      | .error _ => (.error (.wallet .InternalError), ⟨1, 0⟩)
      | .ok state =>
        if delegated_address_of state addr = 0 then
          -- not eip-7702 bytecode
          (.error (.wallet .IllegalDestination), ⟨1, 0⟩)
        else
          sponsor_pipeline env request
    -- an eip-7702 tx is let through
    | true, _ => sponsor_pipeline env request
    -- create txs are disallowed
    | _, _ => (.error (.wallet .IllegalDestination), ⟨1, 0⟩)

/-- Derived path observation on `send_transaction` inside the permit
region: the envelope the call builds and signs, `none` when the call
fails before or at the signing step.  Mirrors the stage structure of
`sponsor_pipeline`; used to state which calls count as valid. -/
def pipeline_signing_result {E V H} (env : Env E V H)
    (request : TransactionRequest) : Option V :=
  match env.next_available_nonce with
  | .error _ => none
  | .ok next_nonce =>
    let request := fill_request env request next_nonce
    match env.estimate_gas request with
    | .error _ => none
    | .ok estimate =>
      if 350000 ≤ estimate then none
      else
        match env.eip1559_fees with
        | .error _ => none
        | .ok (base_fee, _) =>
          (env.build (compute_fees base_fee
            {request with gas := some estimate})).toOption

/-- Derived path observation on `send_transaction`: the envelope the
call builds and signs, `none` when the call is rejected before or at the
signing step.  Mirrors the branch structure of `send_transaction`. -/
def signing_result {E V H} (env : Env E V H)
    (request : TransactionRequest) : Option V :=
  match validate_tx_request request with
  | .error _ => none
  | .ok _ =>
    match request.authorization_list.isSome, request.«to» with
    | false, some (.Call addr) =>
      match env.latest with
      | .error _ => none
      | .ok state =>
        if delegated_address_of state addr = 0 then none
        else pipeline_signing_result env request
    | true, _ => pipeline_signing_result env request
    | _, _ => none

/-- A concrete state provider used to exercise the pipeline: address 7
delegates to 3, address 8 carries a designator to the zero address,
address 9 carries plain bytecode, address 10 makes the code read fail,
and every other account has no code. -/
def testState : StateProviderState Unit where
  account_code := fun addr =>
    if addr = 7 then .ok (some (.Eip7702 3))
    else if addr = 8 then .ok (some (.Eip7702 0))
    else if addr = 9 then .ok (some (.LegacyRaw [0]))
    else if addr = 10 then .error ()
    else .ok none

/-- A concrete environment in which every collaborator succeeds. -/
def testEnv : Env Unit Unit Nat where
  chain_id := 911867
  signer_address := 5
  latest := .ok testState
  next_available_nonce := .ok 4
  estimate_gas := fun _ => .ok 21000
  eip1559_fees := .ok (100, 0)
  build := fun _ => .ok ()
  send_raw_transaction := fun _ => .ok 42

/-- `testEnv` with a gas estimate exactly at the 350000 ceiling. -/
def testEnvHighGas : Env Unit Unit Nat :=
  {testEnv with estimate_gas := fun _ => .ok 350000}

/-- `testEnv` with a failing base-fee lookup. -/
def testEnvFeeErr : Env Unit Unit Nat :=
  {testEnv with eip1559_fees := .error ()}

/-- `testEnv` with a failing `provider.latest()`. -/
def testEnvLatestErr : Env Unit Unit Nat :=
  {testEnv with latest := .error ()}

/-- The parts of a jsonrpsee owned error object the wallet fills in: the
integer error code and the human-readable message. -/
structure ErrorObject where
  code : Int
  message : String
deriving DecidableEq, Repr

/-- `jsonrpsee::types::error::INVALID_PARAMS_CODE`, the JSON-RPC
"invalid params" error code. -/
def INVALID_PARAMS_CODE : Int := -32602

/-- The `Display` rendering of each `OdysseyWalletError` variant, from
the `thiserror` attributes on the enum (lib.rs lines 77-119). -/
def OdysseyWalletError.display : OdysseyWalletError → String
  | .ValueNotZero => "tx value not zero"
  | .FromSet => "tx from field is set"
  | .NonceSet => "tx nonce is set"
  | .IllegalDestination =>
      "the destination of the transaction is not a delegated account"
  | .InvalidTransactionRequest => "invalid tx request"
  | .GasEstimateTooHigh estimate =>
      "request would use too much gas: estimated " ++ toString estimate
  | .InternalError => "internal error"

/-- Lines 121-129: `From<OdysseyWalletError> for ErrorObject` — every
wallet error becomes an owned error object with `INVALID_PARAMS_CODE`
and the error's display string. -/
def to_error_object (error : OdysseyWalletError) : ErrorObject :=
  { code := INVALID_PARAMS_CODE, message := error.display }


/-- The delegated address resolved from an account is non-zero exactly
when the code read succeeded and returned an EIP-7702 designator to a
non-zero address. -/
theorem delegated_address_of_ne_zero_iff {E} (state : StateProviderState E)
    (addr : Address) :
    delegated_address_of state addr ≠ 0 ↔
      ∃ a, state.account_code addr = .ok (some (.Eip7702 a)) ∧ a ≠ 0 := by
  unfold delegated_address_of
  cases h : state.account_code addr with
  | error e => simp [h, Except.toOption]
  | ok o =>
    cases o with
    | none => simp [h, Except.toOption]
    | some c => cases c <;> simp [h, Except.toOption]

/-- `build_and_submit` never reports `IllegalDestination`. -/
theorem build_and_submit_ne_illegal {E V H} (env : Env E V H)
    (request : TransactionRequest) :
    build_and_submit env request ≠
      (.error (.wallet .IllegalDestination), ⟨1, 0⟩) := by
  unfold build_and_submit
  cases env.build request with
  | error e => simp
  | ok v => cases h : env.send_raw_transaction v <;> simp [h]

/-- `fee_and_sign` never reports `IllegalDestination`. -/
theorem fee_and_sign_ne_illegal {E V H} (env : Env E V H)
    (request : TransactionRequest) :
    fee_and_sign env request ≠
      (.error (.wallet .IllegalDestination), ⟨1, 0⟩) := by
  unfold fee_and_sign
  cases env.eip1559_fees with
  | error e => simp
  | ok p => exact build_and_submit_ne_illegal env _

/-- The permit-guarded pipeline never reports `IllegalDestination`:
that rejection only originates from the destination authorizer. -/
theorem sponsor_pipeline_ne_illegal {E V H} (env : Env E V H)
    (request : TransactionRequest) :
    sponsor_pipeline env request ≠
      (.error (.wallet .IllegalDestination), ⟨1, 0⟩) := by
  unfold sponsor_pipeline
  cases env.next_available_nonce with
  | error e => simp
  | ok n =>
    simp only
    cases env.estimate_gas (fill_request env request n) with
    | error e => simp
    | ok estimate =>
      simp only
      by_cases hcap : 350000 ≤ estimate
      · simp [hcap]
      · simpa [hcap] using fee_and_sign_ne_illegal env _

/-- A false `Option.any` on the value field means the value is unset or
zero. -/
theorem value_unset_or_zero {r : TransactionRequest}
    (h : r.value.any (fun val => decide (0 < val)) = false) :
    r.value = none ∨ r.value = some 0 := by
  cases hv : r.value with
  | none => exact Or.inl rfl
  | some v =>
    rw [hv] at h
    simp [Option.any] at h
    exact Or.inr (by rw [h])

/-- The counters incremented by `build_and_submit` depend only on
whether the build-and-sign step succeeds. -/
theorem build_and_submit_metrics {E V H} (env : Env E V H)
    (request : TransactionRequest) :
    (build_and_submit env request).2 =
      if (env.build request).toOption.isSome then ⟨0, 1⟩ else ⟨1, 0⟩ := by
  unfold build_and_submit
  cases env.build request with
  | error e => simp [Except.toOption]
  | ok v =>
    cases h : env.send_raw_transaction v <;> simp [h, Except.toOption]

/-- The counters incremented by the permit-guarded pipeline depend only
on whether the pipeline signs an envelope. -/
theorem sponsor_pipeline_metrics {E V H} (env : Env E V H)
    (request : TransactionRequest) :
    (sponsor_pipeline env request).2 =
      if (pipeline_signing_result env request).isSome then ⟨0, 1⟩
      else ⟨1, 0⟩ := by
  cases hn : env.next_available_nonce with
  | error e => simp [sponsor_pipeline, pipeline_signing_result, hn]
  | ok n =>
    cases hg : env.estimate_gas (fill_request env request n) with
    | error e => simp [sponsor_pipeline, pipeline_signing_result, hn, hg]
    | ok estimate =>
      by_cases hcap : 350000 ≤ estimate
      · simp [sponsor_pipeline, pipeline_signing_result, hn, hg, hcap]
      · cases hf : env.eip1559_fees with
        | error e =>
          simp [sponsor_pipeline, pipeline_signing_result, fee_and_sign,
            hn, hg, hcap, hf]
        | ok p =>
          obtain ⟨base_fee, blob⟩ := p
          simp [sponsor_pipeline, pipeline_signing_result, fee_and_sign,
            hn, hg, hcap, hf, build_and_submit_metrics]

/-- The counters incremented by one call of `send_transaction` depend
only on whether the call signs an envelope. -/
theorem send_transaction_metrics {E V H} (env : Env E V H)
    (request : TransactionRequest) :
    (send_transaction env request).2 =
      if (signing_result env request).isSome then ⟨0, 1⟩ else ⟨1, 0⟩ := by
  cases hval : validate_tx_request request with
  | error err => simp [send_transaction, signing_result, hval]
  | ok u =>
    cases ha : request.authorization_list.isSome with
    | true =>
      simpa [send_transaction, signing_result, hval, ha] using
        sponsor_pipeline_metrics env request
    | false =>
      cases ht : request.«to» with
      | none => simp [send_transaction, signing_result, hval, ha, ht]
      | some k =>
        cases k with
        | Create => simp [send_transaction, signing_result, hval, ha, ht]
        | Call addr =>
          cases hl : env.latest with
          | error e => simp [send_transaction, signing_result, hval, ha, ht, hl]
          | ok state =>
            by_cases hd : delegated_address_of state addr = 0
            · simp [send_transaction, signing_result, hval, ha, ht, hl, hd]
            · simpa [send_transaction, signing_result, hval, ha, ht, hl, hd] using
                sponsor_pipeline_metrics env request

/-- C1: for every request that passed validation — a call to an address
(with no authorization list) proceeds past authorization exactly when
the account bytecode at that address is an EIP-7702 delegation
designator to a non-zero address, and is rejected with
`IllegalDestination` otherwise (no code, non-delegation code, or a
designator to the zero address); a request with an authorization list
always proceeds; any other shape is rejected with `IllegalDestination`. -/
theorem destination_authorization {E V H : Type} (env : Env E V H)
    (r : TransactionRequest) (hval : validate_tx_request r = .ok ()) :
    (∀ addr state, r.authorization_list = none →
      r.«to» = some (.Call addr) → env.latest = .ok state →
      ((send_transaction env r = sponsor_pipeline env r ↔
          ∃ a, state.account_code addr = .ok (some (.Eip7702 a)) ∧ a ≠ 0) ∧
        (¬(∃ a, state.account_code addr = .ok (some (.Eip7702 a)) ∧ a ≠ 0) →
          send_transaction env r =
            (.error (.wallet .IllegalDestination), ⟨1, 0⟩)))) ∧
    (r.authorization_list.isSome = true →
      send_transaction env r = sponsor_pipeline env r) ∧
    (r.authorization_list = none → (∀ addr, r.«to» ≠ some (.Call addr)) →
      send_transaction env r = (.error (.wallet .IllegalDestination), ⟨1, 0⟩)) := by
  refine ⟨?_, ?_, ?_⟩
  · intro addr state ha hto hl
    have hsome : r.authorization_list.isSome = false := by simp [ha]
    by_cases hd : delegated_address_of state addr = 0
    · have hsend : send_transaction env r =
          (.error (.wallet .IllegalDestination), ⟨1, 0⟩) := by
        simp [send_transaction, hval, hsome, hto, hl, hd]
      refine ⟨⟨fun h => absurd (hsend ▸ h).symm (sponsor_pipeline_ne_illegal env r),
        fun hex => ?_⟩, fun _ => hsend⟩
      exact absurd hd ((delegated_address_of_ne_zero_iff state addr).mpr hex)
    · have hsend : send_transaction env r = sponsor_pipeline env r := by
        simp [send_transaction, hval, hsome, hto, hl, hd]
      refine ⟨⟨fun _ => (delegated_address_of_ne_zero_iff state addr).mp hd,
        fun _ => hsend⟩, fun hno => ?_⟩
      exact absurd ((delegated_address_of_ne_zero_iff state addr).mp hd) hno
  · intro ha
    simp [send_transaction, hval, ha]
  · intro ha hto
    have hsome : r.authorization_list.isSome = false := by simp [ha]
    cases ht : r.«to» with
    | none => simp [send_transaction, hval, hsome, ht]
    | some k =>
      cases k with
      | Create => simp [send_transaction, hval, hsome, ht]
      | Call addr => exact absurd ht (hto addr)

/-- C1 witness: in the concrete environment, a call to account 7 (which
delegates to address 3) passes authorization and runs the pipeline. -/
theorem destination_authorization_witness :
    send_transaction testEnv { «to» := some (.Call 7) } =
      sponsor_pipeline testEnv { «to» := some (.Call 7) } :=
  (((destination_authorization testEnv { «to» := some (.Call 7) }
      (by decide)).1 7 testState rfl rfl rfl).1).mpr ⟨3, by decide, by decide⟩

/-- C2: a request reaching the gas-cap step with an estimate at or above
350000 is rejected with `GasEstimateTooHigh` carrying the estimate —
independently of the fee oracle, signer and transaction pool, hence
before any fee is computed or anything signed; an estimate strictly
below the ceiling proceeds to the fee step with the gas limit set to the
estimate. -/
theorem gas_cap_enforcement {E V H : Type} (env : Env E V H)
    (r : TransactionRequest) (n estimate : Nat)
    (hn : env.next_available_nonce = .ok n)
    (he : env.estimate_gas (fill_request env r n) = .ok estimate) :
    (350000 ≤ estimate →
      sponsor_pipeline env r =
        (.error (.wallet (.GasEstimateTooHigh estimate)), ⟨1, 0⟩)) ∧
    (350000 ≤ estimate → ∀ fees bld snd,
      sponsor_pipeline
        ({env with
            eip1559_fees := fees
            build := bld
            send_raw_transaction := snd} : Env E V H) r =
        (.error (.wallet (.GasEstimateTooHigh estimate)), ⟨1, 0⟩)) ∧
    (estimate < 350000 →
      sponsor_pipeline env r =
        fee_and_sign env {fill_request env r n with gas := some estimate}) := by
  refine ⟨fun hcap => ?_, fun hcap fees bld snd => ?_, fun hlt => ?_⟩
  · simp [sponsor_pipeline, hn, he, hcap]
  · have he2 := he
    simp only [fill_request] at he2
    simp [sponsor_pipeline, fill_request, hn, he2, hcap]
  · simp [sponsor_pipeline, hn, he, Nat.not_le.mpr hlt]

/-- C2 witness: an estimate of exactly 350000 is rejected with
`GasEstimateTooHigh 350000`; the estimate 21000 proceeds to the fee step
with the gas limit set to 21000. -/
theorem gas_cap_enforcement_witness :
    sponsor_pipeline testEnvHighGas { authorization_list := some [] } =
      (.error (.wallet (.GasEstimateTooHigh 350000)), ⟨1, 0⟩) ∧
    sponsor_pipeline testEnv { authorization_list := some [] } =
      fee_and_sign testEnv
        {fill_request testEnv { authorization_list := some [] } 4 with
          gas := some 21000} :=
  ⟨(gas_cap_enforcement testEnvHighGas _ 4 350000 rfl rfl).1 (by decide),
   (gas_cap_enforcement testEnv _ 4 21000 rfl rfl).2.2 (by decide)⟩

/-- C3 counterexample: account 10 of `testState` makes the account-code
read itself fail, yet the call is rejected with `IllegalDestination` —
not `InternalError` as the claim states: the failed read is silently
treated as "no delegation". -/
theorem account_code_read_failure_counterexample :
    send_transaction testEnv { «to» := some (.Call 10) } =
      (.error (.wallet .IllegalDestination), ⟨1, 0⟩) ∧
    (send_transaction testEnv { «to» := some (.Call 10) }).1 ≠
      .error (.wallet .InternalError) := by decide

/-- C3 (amended): only a failure to obtain the latest state provider
surfaces as `InternalError`; a failure of the account-code read itself
is treated as no delegation and rejected with `IllegalDestination`. -/
theorem state_read_failure_behaviour {E V H : Type} (env : Env E V H)
    (r : TransactionRequest) (addr : Address)
    (hval : validate_tx_request r = .ok ())
    (hauth : r.authorization_list = none)
    (hto : r.«to» = some (.Call addr)) :
    (∀ e, env.latest = .error e →
      send_transaction env r = (.error (.wallet .InternalError), ⟨1, 0⟩)) ∧
    (∀ state e, env.latest = .ok state →
      state.account_code addr = .error e →
      send_transaction env r =
        (.error (.wallet .IllegalDestination), ⟨1, 0⟩)) := by
  have hsome : r.authorization_list.isSome = false := by simp [hauth]
  refine ⟨fun e hl => ?_, fun state e hl hac => ?_⟩
  · simp [send_transaction, hval, hsome, hto, hl]
  · have hd : delegated_address_of state addr = 0 := by
      simp [delegated_address_of, hac, Except.toOption]
    simp [send_transaction, hval, hsome, hto, hl, hd]

/-- C3 witness: a failing `provider.latest()` yields `InternalError`; a
failing account-code read at account 10 yields `IllegalDestination`. -/
theorem state_read_failure_witness :
    send_transaction testEnvLatestErr { «to» := some (.Call 10) } =
      (.error (.wallet .InternalError), ⟨1, 0⟩) ∧
    send_transaction testEnv { «to» := some (.Call 10) } =
      (.error (.wallet .IllegalDestination), ⟨1, 0⟩) :=
  ⟨(state_read_failure_behaviour testEnvLatestErr _ 10
      (by decide) rfl rfl).1 () rfl,
   (state_read_failure_behaviour testEnv _ 10
      (by decide) rfl rfl).2 testState () rfl (by decide)⟩

/-- C4 counterexample: a request with both a positive value and a set
sender is rejected with `ValueNotZero`, not `FromSet` — the sender check
is not independent of the other fields. -/
theorem from_set_precedence_counterexample :
    validate_tx_request { value := some 1, «from» := some 2 } =
      .error .ValueNotZero ∧
    validate_tx_request { value := some 1, «from» := some 2 } ≠
      .error .FromSet := by decide

/-- C4 (amended): when the value is unset or zero, a set sender makes
validation fail with `FromSet` regardless of every other field; a set
and positive value is reported as `ValueNotZero` first. -/
theorem from_set_validation (r : TransactionRequest)
    (hf : r.«from».isSome = true)
    (hv : r.value = none ∨ r.value = some 0) :
    validate_tx_request r = .error .FromSet := by
  unfold validate_tx_request
  rcases hv with hv | hv <;> simp [hv, hf, Option.any]

/-- C4 witness: sender set, value unset, nonce set — validation reports
`FromSet`. -/
theorem from_set_validation_witness :
    validate_tx_request { «from» := some 2, nonce := some 9 } =
      .error .FromSet :=
  from_set_validation { «from» := some 2, nonce := some 9 } rfl (Or.inl rfl)

/-- C5: validation (a pure function in this embedding) succeeds exactly
when the value is unset or zero, the sender is unset and the nonce is
unset; any failure is one of `ValueNotZero` (value set and positive),
`FromSet` (sender set) or `NonceSet` (nonce set). -/
theorem validate_tx_request_spec (r : TransactionRequest) :
    (validate_tx_request r = .ok () ↔
      (r.value = none ∨ r.value = some 0) ∧
        r.«from» = none ∧ r.nonce = none) ∧
    (∀ err, validate_tx_request r = .error err →
      (err = .ValueNotZero ∧ ∃ v, r.value = some v ∧ 0 < v) ∨
      (err = .FromSet ∧ r.«from».isSome = true) ∨
      (err = .NonceSet ∧ r.nonce.isSome = true)) := by
  constructor
  · constructor
    · intro h
      unfold validate_tx_request at h
      split_ifs at h with h1 h2 h3
      exact ⟨value_unset_or_zero (by simpa using h1),
        Option.not_isSome_iff_eq_none.mp (by simpa using h2),
        Option.not_isSome_iff_eq_none.mp (by simpa using h3)⟩
    · intro h
      obtain ⟨hv, hf, hn⟩ := h
      unfold validate_tx_request
      rcases hv with hv | hv <;> simp [hv, hf, hn, Option.any]
  · intro err herr
    unfold validate_tx_request at herr
    split_ifs at herr with h1 h2 h3
    · left
      refine ⟨by injection herr with h; exact h.symm, ?_⟩
      cases hv : r.value with
      | none => rw [hv] at h1; simp [Option.any] at h1
      | some v =>
        rw [hv] at h1
        simp [Option.any] at h1
        exact ⟨v, rfl, h1⟩
    · exact Or.inr (Or.inl ⟨by injection herr with h; exact h.symm, h2⟩)
    · exact Or.inr (Or.inr ⟨by injection herr with h; exact h.symm, h3⟩)

/-- C5 witness: the empty request validates, and a request with value 3
is rejected with one of the three failure reasons. -/
theorem validate_tx_request_spec_witness :
    validate_tx_request {} = .ok () ∧
    ((OdysseyWalletError.ValueNotZero = .ValueNotZero ∧
        ∃ v, ({ value := some 3 } : TransactionRequest).value = some v ∧
          0 < v) ∨
      (OdysseyWalletError.ValueNotZero = .FromSet ∧
        ({ value := some 3 } : TransactionRequest).«from».isSome = true) ∨
      (OdysseyWalletError.ValueNotZero = .NonceSet ∧
        ({ value := some 3 } : TransactionRequest).nonce.isSome = true)) :=
  ⟨(validate_tx_request_spec {}).1.mpr ⟨Or.inl rfl, rfl, rfl⟩,
   (validate_tx_request_spec { value := some 3 }).2 .ValueNotZero (by decide)⟩

/-- C6: at the fee-computation step the priority fee is the fixed
constant 1 gwei, the max fee is the fetched base fee plus that constant,
and the legacy gas-price field is cleared. -/
theorem fee_computation_spec {E V H : Type} (env : Env E V H)
    (r : TransactionRequest) (base_fee blob : Nat)
    (h : env.eip1559_fees = .ok (base_fee, blob)) :
    fee_and_sign env r = build_and_submit env (compute_fees base_fee r) ∧
    (compute_fees base_fee r).max_priority_fee_per_gas =
      some 1000000000 ∧
    (compute_fees base_fee r).max_fee_per_gas =
      some (base_fee + 1000000000) ∧
    (compute_fees base_fee r).gas_price = none := by
  exact ⟨by simp [fee_and_sign, h], rfl, rfl, rfl⟩

/-- C6 witness: with base fee 100 the computed fee fields are priority
fee 1000000000, max fee 100 + 1000000000, gas price cleared. -/
theorem fee_computation_spec_witness :
    fee_and_sign testEnv {} = build_and_submit testEnv (compute_fees 100 {}) ∧
    (compute_fees 100 ({} : TransactionRequest)).max_priority_fee_per_gas =
      some 1000000000 ∧
    (compute_fees 100 ({} : TransactionRequest)).max_fee_per_gas =
      some (100 + 1000000000) ∧
    (compute_fees 100 ({} : TransactionRequest)).gas_price = none :=
  fee_computation_spec testEnv {} 100 0 rfl

/-- C7 counterexample: with a failing base-fee lookup the pipeline
reports `InvalidTransactionRequest` to the caller, not `InternalError`
as the claim states. -/
theorem fee_lookup_failure_counterexample :
    send_transaction testEnvFeeErr { authorization_list := some [] } =
      (.error (.wallet .InvalidTransactionRequest), ⟨1, 0⟩) ∧
    (send_transaction testEnvFeeErr { authorization_list := some [] }).1 ≠
      .error (.wallet .InternalError) := by decide

/-- C7 (amended): a failure of the fee-market (base fee) lookup reaching
the fee step is surfaced to the caller as `InvalidTransactionRequest`. -/
theorem fee_lookup_failure_behaviour {E V H : Type} (env : Env E V H)
    (r : TransactionRequest) (err : E)
    (h : env.eip1559_fees = .error err) :
    fee_and_sign env r =
      (.error (.wallet .InvalidTransactionRequest), ⟨1, 0⟩) := by
  simp [fee_and_sign, h]

/-- C7 witness: the concrete failing fee oracle yields
`InvalidTransactionRequest` at the fee step. -/
theorem fee_lookup_failure_witness :
    fee_and_sign testEnvFeeErr {} =
      (.error (.wallet .InvalidTransactionRequest), ⟨1, 0⟩) :=
  fee_lookup_failure_behaviour testEnvFeeErr {} () rfl

/-- C8: each call increments exactly one counter exactly once; the valid
counter is incremented exactly when building-and-signing succeeds, and
the counters never depend on the transaction-pool collaborator, so a
submission failure after signing still counts the call as valid. -/
theorem metrics_accounting {E V H : Type} (env : Env E V H)
    (r : TransactionRequest) :
    ((send_transaction env r).2 = ⟨1, 0⟩ ∨
      (send_transaction env r).2 = ⟨0, 1⟩) ∧
    ((send_transaction env r).2 = ⟨0, 1⟩ ↔
      (signing_result env r).isSome = true) ∧
    (∀ f, (send_transaction
        ({env with send_raw_transaction := f} : Env E V H) r).2 =
      (send_transaction env r).2) := by
  have h := send_transaction_metrics env r
  refine ⟨?_, ?_, ?_⟩
  · rw [h]
    by_cases hs : (signing_result env r).isSome = true <;> simp [hs]
  · rw [h]
    by_cases hs : (signing_result env r).isSome = true <;> simp [hs]
  · intro f
    have h2 := send_transaction_metrics
      ({env with send_raw_transaction := f} : Env E V H) r
    rw [h, h2]
    have hsig : signing_result
        ({env with send_raw_transaction := f} : Env E V H) r =
        signing_result env r := by
      obtain ⟨c, s, l, nn, g, fee, b, snd⟩ := env
      rfl
    rw [hsig]

/-- C10: every `OdysseyWalletError` variant is mapped to the JSON-RPC
invalid-params code -32602 together with its display message; no
variant gets a distinct code. -/
theorem error_object_mapping (e : OdysseyWalletError) :
    (to_error_object e).code = -32602 ∧
    (to_error_object e).message = e.display ∧
    ∀ e2, (to_error_object e).code = (to_error_object e2).code :=
  ⟨rfl, rfl, fun _ => rfl⟩
